import Mathlib

/-!
Shallow embedding of the discovery state machine of `examples/mgmt-lqi.js`
(the `DeconzTest` class): the sequence of device-parameter reads followed by
the paginated management-LQI neighbor-table walk, driven by inbound decoded
frames and emitting outbound frames.

Modelling conventions:
- JS object fields used by the state machine become fields of the `DeconzTest`
  structure.  The dynamic per-parameter fields (`this[fieldName] = ...`) are
  modelled as a map keyed by parameter id, since each parameter id has its own
  distinct field name in the constants table.
- `new Node(...)` allocates a fresh JS object; object identity is modelled by
  a `uid` field drawn from an allocation counter `nextUid` in the state.
- The JS objects `this.node16` / `this.node64` are keyed maps; they are
  modelled as association lists with insert-or-overwrite semantics.
- Outbound traffic (`sendFrame`) is collected in a `List OutFrame` result.
  Logging (`dumpFrame`, `dumpParameters`, `dumpNodes`, `console.log`) has no
  state effect and is not modelled.  `demoDone()` closes the serial port,
  modelled by the `closed` flag.
- Frame-type and cluster-id constants live in the external `deconz-api` /
  `zigbee-zdo` libraries; only their distinctness matters here, so frame types
  are an inductive type and cluster ids / parameter ids are natural numbers.
-/

namespace MgmtLqi

/-- Frame-type enumerants of the device-management layer (`C.FRAME_TYPE`).
Only distinctness of the values matters to the state machine; `other n`
stands for any further frame type (e.g. `DEVICE_STATE_CHANGED`, which
carries the dataConfirm/dataIndication flags but is neither an indication
nor a confirm frame). -/
inductive FrameType where
  | readParameter
  | apsDataIndication
  | apsDataConfirm
  | apsDataRequest
  | deviceStateChanged
  | other (n : Nat)
deriving DecidableEq, Repr

/-- The ZDO cluster id of a management-LQI response (`zdo.CLUSTER_ID.MANAGEMENT_LQI_RESPONSE`). -/
def MANAGEMENT_LQI_RESPONSE : Nat := 0x8031

/-- One neighbor entry of a management-LQI response frame. -/
structure Neighbor where
  addr64 : Nat
  addr16 : Nat
deriving DecidableEq, Repr

/-- An inbound decoded frame, with the fields the state machine inspects.
`dataConfirm` / `dataIndication` model `frame.hasOwnProperty(k) && frame[k]`
as a single boolean.  `fieldVal` gives, per parameter id, the value the frame
carries in the dynamic field named by that parameter's descriptor
(`frame[fieldName]`). -/
structure InFrame where
  type : FrameType
  dataConfirm : Bool
  dataIndication : Bool
  clusterId : Nat
  fieldVal : Nat → Nat
  startIndex : Nat
  numEntriesThisResponse : Nat
  numEntries : Nat
  neighbors : List Neighbor

/-- The discovered-node record (class `Node`).  `uid` models JS object
identity: each `new Node(...)` allocation gets a fresh `uid`. -/
structure Node where
  addr64 : Nat
  addr16 : Nat
  uid : Nat
deriving DecidableEq, Repr

/-- An outbound frame handed to `sendFrame`, reduced to the fields the code
puts into it. `lqiRequest` covers both `zdo.makeFrame` call sites (the
management-LQI request with `destination64 = this.macAddress` and the given
`startIndex`). -/
inductive OutFrame where
  | readParam (paramId : Nat)
  | dataConfirm
  | dataIndication
  | lqiRequest (destination64 : Option Nat) (startIndex : Nat)
deriving DecidableEq, Repr

/-- Lookup in a JS-object-like keyed map. -/
def lookupAddr : List (Nat × Node) → Nat → Option Node
  | [], _ => none
  | p :: rest, k => if p.1 = k then some p.2 else lookupAddr rest k

/-- Insert-or-overwrite in a JS-object-like keyed map (`this.nodeXX[k] = v`). -/
def setAddr (m : List (Nat × Node)) (k : Nat) (v : Node) : List (Nat × Node) :=
  match m with
  | [] => [(k, v)]
  | p :: rest => if p.1 = k then (k, v) :: rest else p :: setAddr rest k v

/-- The mutable state of the `DeconzTest` object, restricted to the fields
the discovery state machine reads or writes. -/
structure DeconzTest where
  paramIdx : Nat
  deviceStateUpdateInProgress : Bool
  params : Nat → Option Nat
  node16 : List (Nat × Node)
  node64 : List (Nat × Node)
  nextUid : Nat
  closed : Bool

/-- The parameter id `C.PARAM_ID.MAC_ADDRESS` (first entry of `PARAM`); its
stored value is `this.macAddress`, used as `destination64` of LQI requests. -/
def PARAM_ID_MAC_ADDRESS : Nat := 0x01

/-- The ordered list `PARAM` of parameter ids read at startup (13 entries;
the external `C.PARAM_ID` values are opaque, only their distinctness and
order matter). -/
def PARAM : List Nat :=
  [PARAM_ID_MAC_ADDRESS, 0x05, 0x07, 0x08, 0x09, 0x0A, 0x0B, 0x0E,
   0x10, 0x18, 0x1C, 0x22, 0x24]

/-- The state right after the constructor: empty registries, no parameter
fields set, `deviceStateUpdateInProgress` and `paramIdx` undefined (falsy /
not yet used; `readParameters` sets `paramIdx` before first use). -/
def initState : DeconzTest :=
  { paramIdx := 0
    deviceStateUpdateInProgress := false
    params := fun _ => none
    node16 := []
    node64 := []
    nextUid := 0
    closed := false }

/-- `managementLqi(startIndex)`: build and send the next management-LQI
request, addressed to the coordinator (`destination64 = this.macAddress`). -/
def managementLqi (s : DeconzTest) (startIndex : Nat) : DeconzTest × List OutFrame :=
  (s, [OutFrame.lqiRequest (s.params PARAM_ID_MAC_ADDRESS) startIndex])

/-- `readParameter(paramIdx)`: if the index is past the end of `PARAM`,
start the neighbor-table walk at index 0; otherwise send a READ_PARAMETER
frame for the descriptor at that index. -/
def readParameter (prm : List Nat) (s : DeconzTest) (paramIdx : Nat) :
    DeconzTest × List OutFrame :=
  if paramIdx ≥ prm.length then
    managementLqi s 0
  else
    (s, [OutFrame.readParam (prm.getD paramIdx 0)])

/-- `readParameters()`: reset the cursor to 0 and read the first parameter.
This is the `start()` entry point of the discovery run. -/
def readParameters (prm : List Nat) (s : DeconzTest) : DeconzTest × List OutFrame :=
  readParameter prm { s with paramIdx := 0 } 0

/-- One iteration of the registration loop of `handleManagementLqiResponse`:
allocate a fresh `Node` for the neighbor and store it under both of its
addresses (`this.node16[neighbor.addr16] = node;
this.node64[neighbor.addr64] = node`). -/
def registerOne (s : DeconzTest) (n : Neighbor) : DeconzTest :=
  { s with
    node16 := setAddr s.node16 n.addr16 ⟨n.addr64, n.addr16, s.nextUid⟩
    node64 := setAddr s.node64 n.addr64 ⟨n.addr64, n.addr16, s.nextUid⟩
    nextUid := s.nextUid + 1 }

/-- The registration loop of `handleManagementLqiResponse`: for each index
below `count`, read `frame.neighbors[idx]` and register it.  Reading past
the end of the neighbor list throws a `TypeError` in JS (caught and logged
by the frame-event handler), leaving the mutations already performed in
place; the boolean result records whether the loop threw. -/
def registerNeighbors (s : DeconzTest) (neighbors : List Neighbor) (count : Nat) :
    DeconzTest × Bool :=
  match count, neighbors with
  | 0, _ => (s, false)
  | _ + 1, [] => (s, true)
  | k + 1, n :: rest => registerNeighbors (registerOne s n) rest k

/-- `handleManagementLqiResponse(frame)`: register every reported neighbor,
then either request the next page at `startIndex + numEntriesThisResponse`
or finish the run (`dumpNodes(); demoDone()`, which closes the port).  If the
registration loop threw, the exception propagates out of `handleFrame` and is
logged; nothing further happens for this frame. -/
def handleManagementLqiResponse (s : DeconzTest) (frame : InFrame) :
    DeconzTest × List OutFrame :=
  if (registerNeighbors s frame.neighbors frame.numEntriesThisResponse).2 then
    ((registerNeighbors s frame.neighbors frame.numEntriesThisResponse).1, [])
  else if frame.startIndex + frame.numEntriesThisResponse < frame.numEntries then
    managementLqi (registerNeighbors s frame.neighbors frame.numEntriesThisResponse).1
      (frame.startIndex + frame.numEntriesThisResponse)
  else
    ({ (registerNeighbors s frame.neighbors frame.numEntriesThisResponse).1
        with closed := true }, [])

/-- Lines 154-157 of `handleFrame`: an APS_DATA_INDICATION or
APS_DATA_CONFIRM frame clears `deviceStateUpdateInProgress`. -/
def clearFlagOnIndConfirm (s : DeconzTest) (frame : InFrame) : DeconzTest :=
  if frame.type = FrameType.apsDataIndication ∨ frame.type = FrameType.apsDataConfirm then
    { s with deviceStateUpdateInProgress := false }
  else s

/-- Lines 159-173 of `handleFrame`: a pending send-confirmation is always
fetched (flag set, APS_DATA_CONFIRM sent); otherwise, when no update is in
progress, a pending indication is fetched (flag set, APS_DATA_INDICATION
sent). -/
def handlePendingSignals (s : DeconzTest) (frame : InFrame) :
    DeconzTest × List OutFrame :=
  if frame.dataConfirm then
    ({ s with deviceStateUpdateInProgress := true }, [OutFrame.dataConfirm])
  else if !s.deviceStateUpdateInProgress ∧ frame.dataIndication then
    ({ s with deviceStateUpdateInProgress := true }, [OutFrame.dataIndication])
  else
    (s, [])

/-- Lines 175-198 of `handleFrame`: the frame-type dispatch.  A
READ_PARAMETER frame with the cursor still in range stores the received
value in the dynamic field of the current descriptor, advances the cursor,
and either sends the first LQI request (cursor just reached the end, after
`dumpParameters()`) or the next READ_PARAMETER request.  An
APS_DATA_INDICATION frame whose cluster id is the management-LQI response
cluster is handed to `handleManagementLqiResponse`.  Anything else falls
through. -/
def handleTyped (prm : List Nat) (s : DeconzTest) (frame : InFrame) :
    DeconzTest × List OutFrame :=
  if frame.type = FrameType.readParameter then
    if s.paramIdx < prm.length then
      let paramId := prm.getD s.paramIdx 0
      let s1 : DeconzTest :=
        { s with
          params := fun p => if p = paramId then some (frame.fieldVal paramId)
                             else s.params p
          paramIdx := s.paramIdx + 1 }
      if s1.paramIdx = prm.length then
        (s1, [OutFrame.lqiRequest (s1.params PARAM_ID_MAC_ADDRESS) 0])
      else
        readParameter prm s1 s1.paramIdx
    else (s, [])
  else if frame.type = FrameType.apsDataIndication then
    if frame.clusterId = MANAGEMENT_LQI_RESPONSE then
      handleManagementLqiResponse s frame
    else (s, [])
  else (s, [])

/-- `handleFrame(frame)`: the single entry point for inbound decoded frames
(`frame.received = true`, ZDO parsing and `dumpFrame` only affect the frame
object / the log, not the machine state). -/
def handleFrame (prm : List Nat) (s : DeconzTest) (frame : InFrame) :
    DeconzTest × List OutFrame :=
  let s1 := clearFlagOnIndConfirm s frame
  let r1 := handlePendingSignals s1 frame
  let r2 := handleTyped prm r1.1 frame
  (r2.1, r1.2 ++ r2.2)

/-- Process a sequence of inbound frames in arrival order, keeping only the
resulting state. -/
def runFrames (prm : List Nat) (s : DeconzTest) : List InFrame → DeconzTest
  | [] => s
  | f :: rest => runFrames prm (handleFrame prm s f).1 rest

/-- The derived discovery state: the source keeps it implicitly in
`paramIdx` (reading-parameters phase while the cursor is in range) and in
whether `demoDone()` has closed the port. -/
inductive MachineState where
  | readingParameters (cursor : Nat)
  | walkingNeighbors
  | done
deriving DecidableEq, Repr

/-- Read the derived discovery state off a `DeconzTest` state. -/
def machineState (prm : List Nat) (s : DeconzTest) : MachineState :=
  if s.closed then MachineState.done
  else if s.paramIdx < prm.length then MachineState.readingParameters s.paramIdx
  else MachineState.walkingNeighbors

/-- A neutral inbound frame used to build concrete test frames: a frame type
the state machine has no handling for, and no pending signals. -/
def baseFrame : InFrame :=
  { type := FrameType.other 0
    dataConfirm := false
    dataIndication := false
    clusterId := 0
    fieldVal := fun _ => 0
    startIndex := 0
    numEntriesThisResponse := 0
    numEntries := 0
    neighbors := [] }

/-- A concrete well-formed management-LQI response page used as a witness
input: start 0, one entry returned, three entries total. -/
def lqiPage : InFrame :=
  { baseFrame with
    type := FrameType.apsDataIndication
    clusterId := MANAGEMENT_LQI_RESPONSE
    startIndex := 0
    numEntriesThisResponse := 1
    numEntries := 3
    neighbors := [⟨1, 2⟩] }

/-- Cross-consistency of the Node Registry: every stored Node is keyed by
its own address in each mapping, and is reachable from the other mapping at
its other address (hence both mappings hold the same Node instances). -/
def StateConsistent (s : DeconzTest) : Prop :=
  (∀ k n, lookupAddr s.node16 k = some n →
     n.addr16 = k ∧ lookupAddr s.node64 n.addr64 = some n) ∧
  (∀ k n, lookupAddr s.node64 k = some n →
     n.addr64 = k ∧ lookupAddr s.node16 n.addr16 = some n)

/-- A neighbor pair is compatible with the registry when any Node already
stored under either of its addresses carries that exact address pair. -/
def pairCompat (s : DeconzTest) (m : Neighbor) : Prop :=
  (∀ n, lookupAddr s.node16 m.addr16 = some n → n.addr64 = m.addr64) ∧
  (∀ n, lookupAddr s.node64 m.addr64 = some n → n.addr16 = m.addr16)

/-- A registration sequence is address-consistent when two entries sharing a
short or a long address are the identical pair. -/
def consistentList (l : List Neighbor) : Prop :=
  ∀ m1 ∈ l, ∀ m2 ∈ l, (m1.addr16 = m2.addr16 ∨ m1.addr64 = m2.addr64) → m1 = m2

/-- Lookup after insert-or-overwrite: the overwritten key yields the new
node, all other keys are unaffected. -/
theorem lookupAddr_setAddr (m : List (Nat × Node)) (k : Nat) (v : Node) (k2 : Nat) :
    lookupAddr (setAddr m k v) k2 = if k2 = k then some v else lookupAddr m k2 := by
  induction m with
  | nil =>
      by_cases h : k2 = k
      · simp [setAddr, lookupAddr, h]
      · have h' : ¬ k = k2 := fun hh => h hh.symm
        simp [setAddr, lookupAddr, h, h']
  | cons p rest ih =>
      by_cases hpk : p.1 = k
      · by_cases h : k2 = k
        · simp [setAddr, lookupAddr, hpk, h]
        · have h' : ¬ k = k2 := fun hh => h hh.symm
          have hp2 : ¬ p.1 = k2 := hpk ▸ h'
          simp [setAddr, lookupAddr, hpk, h, h', hp2]
      · by_cases hpk2 : p.1 = k2
        · have h2 : ¬ k2 = k := fun h => hpk (hpk2.trans h)
          simp [setAddr, lookupAddr, hpk, hpk2, h2]
        · by_cases h : k2 = k <;> simp_all [setAddr, lookupAddr]

/-- Clearing the in-flight flag touches no other state component. -/
theorem clearFlagOnIndConfirm_preserve (s : DeconzTest) (f : InFrame) :
    (clearFlagOnIndConfirm s f).paramIdx = s.paramIdx ∧
    (clearFlagOnIndConfirm s f).params = s.params ∧
    (clearFlagOnIndConfirm s f).node16 = s.node16 ∧
    (clearFlagOnIndConfirm s f).node64 = s.node64 ∧
    (clearFlagOnIndConfirm s f).nextUid = s.nextUid ∧
    (clearFlagOnIndConfirm s f).closed = s.closed := by
  unfold clearFlagOnIndConfirm
  split <;> exact ⟨rfl, rfl, rfl, rfl, rfl, rfl⟩

/-- Handling the pending signals touches no state component but the flag. -/
theorem handlePendingSignals_preserve (s : DeconzTest) (f : InFrame) :
    (handlePendingSignals s f).1.paramIdx = s.paramIdx ∧
    (handlePendingSignals s f).1.params = s.params ∧
    (handlePendingSignals s f).1.node16 = s.node16 ∧
    (handlePendingSignals s f).1.node64 = s.node64 ∧
    (handlePendingSignals s f).1.nextUid = s.nextUid ∧
    (handlePendingSignals s f).1.closed = s.closed := by
  unfold handlePendingSignals
  split
  · exact ⟨rfl, rfl, rfl, rfl, rfl, rfl⟩
  · split <;> exact ⟨rfl, rfl, rfl, rfl, rfl, rfl⟩

/-- Handling the pending signals can only emit the two fetch frames. -/
theorem handlePendingSignals_outs (s : DeconzTest) (f : InFrame) (x : OutFrame)
    (hx : x ∈ (handlePendingSignals s f).2) :
    x = OutFrame.dataConfirm ∨ x = OutFrame.dataIndication := by
  unfold handlePendingSignals at hx
  split at hx
  · simp at hx; exact Or.inl hx
  · split at hx
    · simp at hx; exact Or.inr hx
    · simp at hx

/-- The registration loop touches only the two registries and the allocation
counter. -/
theorem registerNeighbors_preserve (count : Nat) :
    ∀ (neighbors : List Neighbor) (s : DeconzTest),
    (registerNeighbors s neighbors count).1.paramIdx = s.paramIdx ∧
    (registerNeighbors s neighbors count).1.params = s.params ∧
    (registerNeighbors s neighbors count).1.deviceStateUpdateInProgress =
      s.deviceStateUpdateInProgress ∧
    (registerNeighbors s neighbors count).1.closed = s.closed := by
  induction count with
  | zero => intro ns s; cases ns <;> exact ⟨rfl, rfl, rfl, rfl⟩
  | succ k ih =>
      intro ns s
      cases ns with
      | nil => exact ⟨rfl, rfl, rfl, rfl⟩
      | cons n rest => simpa [registerNeighbors] using ih rest _

/-- The registration loop does not throw when it reads no further than the
end of the neighbor list. -/
theorem registerNeighbors_noThrow (count : Nat) :
    ∀ (neighbors : List Neighbor) (s : DeconzTest),
    count ≤ neighbors.length → (registerNeighbors s neighbors count).2 = false := by
  induction count with
  | zero => intro ns s _; cases ns <;> rfl
  | succ k ih =>
      intro ns s hle
      cases ns with
      | nil => simp at hle
      | cons n rest =>
          simp only [List.length_cons, Nat.succ_le_succ_iff] at hle
          simpa [registerNeighbors] using ih rest _ hle

/-- The management-LQI response handler touches neither the parameter cursor,
the parameter fields, nor the in-flight flag. -/
theorem handleManagementLqiResponse_preserve (s : DeconzTest) (f : InFrame) :
    (handleManagementLqiResponse s f).1.paramIdx = s.paramIdx ∧
    (handleManagementLqiResponse s f).1.params = s.params ∧
    (handleManagementLqiResponse s f).1.deviceStateUpdateInProgress =
      s.deviceStateUpdateInProgress := by
  have h := registerNeighbors_preserve f.numEntriesThisResponse f.neighbors s
  unfold handleManagementLqiResponse
  split
  · exact ⟨h.1, h.2.1, h.2.2.1⟩
  · split
    · exact ⟨h.1, h.2.1, h.2.2.1⟩
    · exact ⟨h.1, h.2.1, h.2.2.1⟩

/-- The management-LQI response handler result restated through the
registration result, with the throw case discharged. -/
theorem handleManagementLqiResponse_eq (s : DeconzTest) (f : InFrame)
    (hwf : f.numEntriesThisResponse ≤ f.neighbors.length) :
    handleManagementLqiResponse s f =
      if f.startIndex + f.numEntriesThisResponse < f.numEntries then
        ((registerNeighbors s f.neighbors f.numEntriesThisResponse).1,
         [OutFrame.lqiRequest (s.params PARAM_ID_MAC_ADDRESS)
            (f.startIndex + f.numEntriesThisResponse)])
      else
        ({ (registerNeighbors s f.neighbors f.numEntriesThisResponse).1
            with closed := true }, []) := by
  have hnt := registerNeighbors_noThrow f.numEntriesThisResponse f.neighbors s hwf
  have hp := (registerNeighbors_preserve f.numEntriesThisResponse f.neighbors s).2.1
  unfold handleManagementLqiResponse managementLqi
  rw [hnt]
  simp [hp]

/-- The frame-type dispatch characterized on the parameter cursor: a
READ_PARAMETER frame with the cursor in range advances it by one, every
other frame leaves it alone. -/
theorem handleTyped_paramIdx (prm : List Nat) (s : DeconzTest) (f : InFrame) :
    (handleTyped prm s f).1.paramIdx =
      if f.type = FrameType.readParameter ∧ s.paramIdx < prm.length
      then s.paramIdx + 1 else s.paramIdx := by
  simp only [handleTyped]
  split
  · next hty =>
      split
      · next hlt =>
          simp only [hty, hlt, and_self, if_true, readParameter, managementLqi]
          split
          · rfl
          · split <;> rfl
      · next hge => simp [hty, hge]
  · next hty =>
      have hna : ¬ (f.type = FrameType.readParameter ∧ s.paramIdx < prm.length) :=
        fun hh => hty hh.1
      split
      · split
        · simpa [hna] using (handleManagementLqiResponse_preserve s f).1
        · simp [hna]
      · simp [hna]

/-- The frame-type dispatch never changes the in-flight flag. -/
theorem handleTyped_flag (prm : List Nat) (s : DeconzTest) (f : InFrame) :
    (handleTyped prm s f).1.deviceStateUpdateInProgress =
      s.deviceStateUpdateInProgress := by
  simp only [handleTyped, readParameter, managementLqi]
  split
  · split
    · split
      · rfl
      · split <;> rfl
    · rfl
  · split
    · split
      · exact (handleManagementLqiResponse_preserve s f).2.2
      · rfl
    · rfl

/-- `handleFrame` unfolded into its three phases. -/
theorem handleFrame_eq (prm : List Nat) (s : DeconzTest) (f : InFrame) :
    handleFrame prm s f =
      ((handleTyped prm (handlePendingSignals (clearFlagOnIndConfirm s f) f).1 f).1,
       (handlePendingSignals (clearFlagOnIndConfirm s f) f).2 ++
       (handleTyped prm (handlePendingSignals (clearFlagOnIndConfirm s f) f).1 f).2) := rfl

/-- `handleFrame` characterized on the parameter cursor. -/
theorem handleFrame_paramIdx (prm : List Nat) (s : DeconzTest) (f : InFrame) :
    (handleFrame prm s f).1.paramIdx =
      if f.type = FrameType.readParameter ∧ s.paramIdx < prm.length
      then s.paramIdx + 1 else s.paramIdx := by
  rw [handleFrame_eq]
  have h1 := (clearFlagOnIndConfirm_preserve s f).1
  have h2 := (handlePendingSignals_preserve (clearFlagOnIndConfirm s f) f).1
  simp only [handleTyped_paramIdx, h2, h1]

/-- A frame that is neither an indication nor a confirm leaves
`clearFlagOnIndConfirm` as the identity. -/
theorem clearFlagOnIndConfirm_of_not (s : DeconzTest) (f : InFrame)
    (h : ¬ (f.type = FrameType.apsDataIndication ∨ f.type = FrameType.apsDataConfirm)) :
    clearFlagOnIndConfirm s f = s := by
  simp [clearFlagOnIndConfirm, h]

/-- An indication or confirm frame has its flag cleared. -/
theorem clearFlagOnIndConfirm_of (s : DeconzTest) (f : InFrame)
    (h : f.type = FrameType.apsDataIndication ∨ f.type = FrameType.apsDataConfirm) :
    clearFlagOnIndConfirm s f = { s with deviceStateUpdateInProgress := false } := by
  simp [clearFlagOnIndConfirm, h]

/-- With neither pending signal set, the signal phase does nothing. -/
theorem handlePendingSignals_noSignals (s : DeconzTest) (f : InFrame)
    (hc : f.dataConfirm = false) (hi : f.dataIndication = false) :
    handlePendingSignals s f = (s, []) := by
  simp [handlePendingSignals, hc, hi]

/-- With the pending-confirm signal set, the signal phase sets the flag and
emits the confirmation-fetch frame, whatever the current flag value. -/
theorem handlePendingSignals_confirm (s : DeconzTest) (f : InFrame)
    (hc : f.dataConfirm = true) :
    handlePendingSignals s f =
      ({ s with deviceStateUpdateInProgress := true }, [OutFrame.dataConfirm]) := by
  simp [handlePendingSignals, hc]

/-- A frame whose type has no dispatch case and that is not an accepted
parameter-read response nor a management-LQI response leaves the typed
dispatch as the identity with no output. -/
theorem handleTyped_notHandled (prm : List Nat) (s : DeconzTest) (f : InFrame)
    (h1 : ¬ (f.type = FrameType.readParameter ∧ s.paramIdx < prm.length))
    (h2 : ¬ (f.type = FrameType.apsDataIndication ∧ f.clusterId = MANAGEMENT_LQI_RESPONSE)) :
    handleTyped prm s f = (s, []) := by
  simp only [handleTyped]
  split
  · next hty =>
      split
      · next hlt => exact absurd ⟨hty, hlt⟩ h1
      · rfl
  · split
    · next hty2 =>
        split
        · next hcl => exact absurd ⟨hty2, hcl⟩ h2
        · rfl
    · rfl

/-- Registering a compatible pair preserves registry cross-consistency. -/
theorem registerOne_consistent (s : DeconzTest) (m : Neighbor)
    (hs : StateConsistent s) (hc : pairCompat s m) :
    StateConsistent (registerOne s m) := by
  constructor
  · intro k n hkn
    simp only [registerOne, lookupAddr_setAddr] at hkn ⊢
    by_cases hk : k = m.addr16
    · rw [if_pos hk] at hkn
      cases hkn
      exact ⟨hk.symm, by simp⟩
    · rw [if_neg hk] at hkn
      obtain ⟨ha, hb⟩ := hs.1 k n hkn
      have hne : ¬ n.addr64 = m.addr64 := by
        intro he
        exact hk (ha ▸ hc.2 n (he ▸ hb))
      rw [if_neg hne]
      exact ⟨ha, hb⟩
  · intro k n hkn
    simp only [registerOne, lookupAddr_setAddr] at hkn ⊢
    by_cases hk : k = m.addr64
    · rw [if_pos hk] at hkn
      cases hkn
      exact ⟨hk.symm, by simp⟩
    · rw [if_neg hk] at hkn
      obtain ⟨ha, hb⟩ := hs.2 k n hkn
      have hne : ¬ n.addr16 = m.addr16 := by
        intro he
        exact hk (ha ▸ hc.1 n (he ▸ hb))
      rw [if_neg hne]
      exact ⟨ha, hb⟩

/-- Registering one pair keeps every other pair compatible, provided the two
pairs do not partially alias (sharing one address implies being identical). -/
theorem registerOne_compat (s : DeconzTest) (m m2 : Neighbor)
    (hc2 : pairCompat s m2)
    (hdet : (m.addr16 = m2.addr16 ∨ m.addr64 = m2.addr64) → m = m2) :
    pairCompat (registerOne s m) m2 := by
  constructor
  · intro n hn
    simp only [registerOne, lookupAddr_setAddr] at hn
    by_cases h : m2.addr16 = m.addr16
    · have hm : m = m2 := hdet (Or.inl h.symm)
      rw [if_pos h] at hn
      cases hn
      rw [hm]
    · rw [if_neg h] at hn
      exact hc2.1 n hn
  · intro n hn
    simp only [registerOne, lookupAddr_setAddr] at hn
    by_cases h : m2.addr64 = m.addr64
    · have hm : m = m2 := hdet (Or.inr h.symm)
      rw [if_pos h] at hn
      cases hn
      rw [hm]
    · rw [if_neg h] at hn
      exact hc2.2 n hn

/-- Running the registration loop over an address-consistent list, from a
cross-consistent registry every list entry is compatible with, yields a
cross-consistent registry. -/
theorem registerNeighbors_consistentAux :
    ∀ (l : List Neighbor) (s : DeconzTest),
    StateConsistent s → (∀ m ∈ l, pairCompat s m) → consistentList l →
    StateConsistent (registerNeighbors s l l.length).1 := by
  intro l
  induction l with
  | nil => intro s hs _ _; exact hs
  | cons m rest ih =>
      intro s hs hcomp hcl
      have hstep :
          registerNeighbors s (m :: rest) (m :: rest).length =
            registerNeighbors (registerOne s m) rest rest.length := by
        simp [registerNeighbors]
      rw [hstep]
      apply ih
      · exact registerOne_consistent s m hs (hcomp m (List.mem_cons_self m rest))
      · intro m2 hm2
        apply registerOne_compat s m m2 (hcomp m2 (List.mem_cons_of_mem m hm2))
        intro hsh
        exact hcl m (List.mem_cons_self m rest) m2 (List.mem_cons_of_mem m hm2) hsh
      · intro m1 hm1 m2 hm2 hsh
        exact hcl m1 (List.mem_cons_of_mem m hm1) m2 (List.mem_cons_of_mem m hm2) hsh

/-- Over any frame sequence the cursor is monotone and stays within the
descriptor count. -/
theorem runFrames_paramIdx_bounds (prm : List Nat) :
    ∀ (fs : List InFrame) (s : DeconzTest), s.paramIdx ≤ prm.length →
    s.paramIdx ≤ (runFrames prm s fs).paramIdx ∧
    (runFrames prm s fs).paramIdx ≤ prm.length := by
  intro fs
  induction fs with
  | nil => intro s h; exact ⟨Nat.le_refl _, h⟩
  | cons f rest ih =>
      intro s h
      have hstep := handleFrame_paramIdx prm s f
      have hmono : s.paramIdx ≤ (handleFrame prm s f).1.paramIdx := by
        rw [hstep]; split
        · exact Nat.le_succ _
        · exact Nat.le_refl _
      have hbound : (handleFrame prm s f).1.paramIdx ≤ prm.length := by
        rw [hstep]; split
        · next hacc => exact hacc.2
        · exact h
      have hr := ih (handleFrame prm s f).1 hbound
      exact ⟨Nat.le_trans hmono hr.1, hr.2⟩

/-- Claim C1, counterexample: a frame that both carries the pending-confirm
signal and is a READ_PARAMETER response, processed with the cursor at 0,
does advance the parameter cursor to 1 (while also being confirm-handled) —
the pending-confirm check does not take priority over the parameter-read
handling, contrary to the claim that the cursor does not progress. -/
theorem c1_confirm_priority_counterexample :
    initState.paramIdx = 0 ∧
    OutFrame.dataConfirm ∈
      (handleFrame PARAM initState
        { baseFrame with type := FrameType.readParameter, dataConfirm := true }).2 ∧
    (handleFrame PARAM initState
        { baseFrame with type := FrameType.readParameter, dataConfirm := true }).1.paramIdx
      = 1 := by
  refine ⟨rfl, ?_, ?_⟩ <;> decide

/-- Claim C1 (amended): an inbound frame carrying both the pending-confirm
signal and being a parameter-read response accepted in the current state has
the confirm signal handled (flag set, confirm frame emitted) AND the
parameter-read handling still runs on the same frame, advancing the cursor
by one; the pending-confirm check takes priority only over the
pending-indication check, not over the typed dispatch. -/
theorem c1_confirm_and_param_both_handled (prm : List Nat) (s : DeconzTest)
    (f : InFrame) (hc : f.dataConfirm = true)
    (ht : f.type = FrameType.readParameter) (hlt : s.paramIdx < prm.length) :
    (handleFrame prm s f).1.deviceStateUpdateInProgress = true ∧
    OutFrame.dataConfirm ∈ (handleFrame prm s f).2 ∧
    (handleFrame prm s f).1.paramIdx = s.paramIdx + 1 := by
  have hpi := handleFrame_paramIdx prm s f
  rw [if_pos ⟨ht, hlt⟩] at hpi
  refine ⟨?_, ?_, hpi⟩
  · rw [handleFrame_eq]
    simp only [handleTyped_flag, handlePendingSignals_confirm _ f hc]
  · rw [handleFrame_eq]
    simp only [handlePendingSignals_confirm _ f hc]
    exact List.mem_append.mpr (Or.inl (List.mem_singleton.mpr rfl))

/-- Witness for C1 at a concrete input. -/
theorem c1_confirm_and_param_both_handled_witness :
    (({ baseFrame with type := FrameType.readParameter, dataConfirm := true } :
        InFrame).dataConfirm = true ∧
     ({ baseFrame with type := FrameType.readParameter, dataConfirm := true } :
        InFrame).type = FrameType.readParameter ∧
     initState.paramIdx < PARAM.length) ∧
    ((handleFrame PARAM initState
        { baseFrame with type := FrameType.readParameter, dataConfirm := true }).1.deviceStateUpdateInProgress = true ∧
     OutFrame.dataConfirm ∈
       (handleFrame PARAM initState
         { baseFrame with type := FrameType.readParameter, dataConfirm := true }).2 ∧
     (handleFrame PARAM initState
         { baseFrame with type := FrameType.readParameter, dataConfirm := true }).1.paramIdx
       = initState.paramIdx + 1) :=
  ⟨⟨rfl, rfl, by decide⟩,
   c1_confirm_and_param_both_handled PARAM initState _ rfl rfl (by decide)⟩

/-- Claim C2, counterexample: with a confirmation already in flight
(`deviceStateUpdateInProgress = true`), a device-state frame carrying the
pending-confirm signal still gets a confirmation frame emitted — the claim
that no confirmation frame is emitted while one is in flight is false. -/
theorem c2_confirm_gating_counterexample :
    ({ initState with deviceStateUpdateInProgress := true } :
        DeconzTest).deviceStateUpdateInProgress = true ∧
    (handleFrame PARAM { initState with deviceStateUpdateInProgress := true }
        { baseFrame with type := FrameType.deviceStateChanged, dataConfirm := true }).2
      = [OutFrame.dataConfirm] := by
  refine ⟨rfl, ?_⟩
  decide

/-- Claim C2 (amended): for every inbound frame carrying the pending-confirm
signal, the state machine sets the In-Flight Confirmation Flag and emits an
outbound confirmation frame unconditionally — the pending-confirm branch does
not test the flag; only the pending-indication fetch is gated on it. -/
theorem c2_confirm_signal_unconditional (prm : List Nat) (s : DeconzTest)
    (f : InFrame) (hc : f.dataConfirm = true) :
    (handleFrame prm s f).1.deviceStateUpdateInProgress = true ∧
    OutFrame.dataConfirm ∈ (handleFrame prm s f).2 := by
  constructor
  · rw [handleFrame_eq]
    simp only [handleTyped_flag, handlePendingSignals_confirm _ f hc]
  · rw [handleFrame_eq]
    simp only [handlePendingSignals_confirm _ f hc]
    exact List.mem_append.mpr (Or.inl (List.mem_singleton.mpr rfl))

/-- Witness for C2 at a concrete input (flag already set). -/
theorem c2_confirm_signal_unconditional_witness :
    (({ baseFrame with type := FrameType.deviceStateChanged, dataConfirm := true } :
        InFrame).dataConfirm = true) ∧
    ((handleFrame PARAM { initState with deviceStateUpdateInProgress := true }
        { baseFrame with type := FrameType.deviceStateChanged, dataConfirm := true }).1.deviceStateUpdateInProgress = true ∧
     OutFrame.dataConfirm ∈
       (handleFrame PARAM { initState with deviceStateUpdateInProgress := true }
         { baseFrame with type := FrameType.deviceStateChanged, dataConfirm := true }).2) :=
  ⟨rfl, c2_confirm_signal_unconditional PARAM
          { initState with deviceStateUpdateInProgress := true } _ rfl⟩

/-- Claim C3, counterexample: registering the address pair (17, 34) twice
from the empty registry performs two Node allocations (`nextUid = 2`), and
the registry holds the second allocation (uid 1), not the first (uid 0) —
the registration is not idempotent in the sense of keeping the existing
Node, and a Node is not created exactly once per distinct pair. -/
theorem c3_register_twice_counterexample :
    (registerNeighbors initState [⟨17, 34⟩, ⟨17, 34⟩] 2).1.nextUid = 2 ∧
    lookupAddr (registerNeighbors initState [⟨17, 34⟩, ⟨17, 34⟩] 2).1.node16 34
      = some ⟨17, 34, 1⟩ ∧
    lookupAddr (registerNeighbors initState [⟨17, 34⟩, ⟨17, 34⟩] 2).1.node16 34
      ≠ some ⟨17, 34, 0⟩ := by
  refine ⟨rfl, by decide, by decide⟩

/-- Claim C3 (amended): registering the same (shortAddr, longAddr) pair twice
allocates a fresh Node each time (the allocation counter advances by two) and
overwrites both mappings with the newer instance; after both registrations
exactly one Node for that pair is in the registry — the second allocation —
reachable identically via both lookup mappings. -/
theorem c3_register_twice_overwrites (s : DeconzTest) (n : Neighbor) :
    (registerNeighbors s [n, n] 2).1.nextUid = s.nextUid + 2 ∧
    lookupAddr (registerNeighbors s [n, n] 2).1.node16 n.addr16
      = some ⟨n.addr64, n.addr16, s.nextUid + 1⟩ ∧
    lookupAddr (registerNeighbors s [n, n] 2).1.node64 n.addr64
      = some ⟨n.addr64, n.addr16, s.nextUid + 1⟩ := by
  have h : registerNeighbors s [n, n] 2 = (registerOne (registerOne s n) n, false) := rfl
  rw [h]
  refine ⟨rfl, ?_, ?_⟩
  · simp [registerOne, lookupAddr_setAddr]
  · simp [registerOne, lookupAddr_setAddr]

/-- Claim C5: each accepted parameter-read response advances the cursor by
exactly one, the cursor never decreases (per frame and over any frame
sequence), and `0 ≤ cursor ≤ length(descriptors)` holds after every
processed frame. -/
theorem c5_cursor_monotone_invariant (prm : List Nat) (s : DeconzTest)
    (h : s.paramIdx ≤ prm.length) :
    (∀ f : InFrame,
       (f.type = FrameType.readParameter → s.paramIdx < prm.length →
          (handleFrame prm s f).1.paramIdx = s.paramIdx + 1) ∧
       s.paramIdx ≤ (handleFrame prm s f).1.paramIdx ∧
       (handleFrame prm s f).1.paramIdx ≤ prm.length) ∧
    (∀ fs : List InFrame,
       s.paramIdx ≤ (runFrames prm s fs).paramIdx ∧
       (runFrames prm s fs).paramIdx ≤ prm.length) := by
  constructor
  · intro f
    have hstep := handleFrame_paramIdx prm s f
    refine ⟨?_, ?_, ?_⟩
    · intro ht hlt
      rw [hstep, if_pos ⟨ht, hlt⟩]
    · rw [hstep]; split
      · exact Nat.le_succ _
      · exact Nat.le_refl _
    · rw [hstep]; split
      · next hacc => exact hacc.2
      · exact h
  · intro fs
    exact runFrames_paramIdx_bounds prm fs s h

/-- Claim C4: for every processed neighbor-table response, the next request
uses startIndex equal to the response's startIndex plus the entries actually
returned (`numEntriesThisResponse`, with the neighbor list exactly that
long); a next request is emitted exactly when that index is below the total
entry count, and otherwise the run closes the transport and reaches the
terminal state. -/
theorem c4_pagination_step (prm : List Nat) (s : DeconzTest) (f : InFrame)
    (ht : f.type = FrameType.apsDataIndication)
    (hcl : f.clusterId = MANAGEMENT_LQI_RESPONSE)
    (hwf : f.neighbors.length = f.numEntriesThisResponse) :
    (f.startIndex + f.numEntriesThisResponse < f.numEntries →
       OutFrame.lqiRequest (s.params PARAM_ID_MAC_ADDRESS)
           (f.startIndex + f.numEntriesThisResponse) ∈ (handleFrame prm s f).2 ∧
       (∀ d i, OutFrame.lqiRequest d i ∈ (handleFrame prm s f).2 →
          i = f.startIndex + f.numEntriesThisResponse) ∧
       (handleFrame prm s f).1.closed = s.closed) ∧
    (¬ f.startIndex + f.numEntriesThisResponse < f.numEntries →
       (∀ d i, OutFrame.lqiRequest d i ∉ (handleFrame prm s f).2) ∧
       (handleFrame prm s f).1.closed = true ∧
       machineState prm (handleFrame prm s f).1 = MachineState.done) := by
  have hwf' : f.numEntriesThisResponse ≤ f.neighbors.length := Nat.le_of_eq hwf.symm
  have hty2 : handleTyped prm (handlePendingSignals (clearFlagOnIndConfirm s f) f).1 f
      = handleManagementLqiResponse
          (handlePendingSignals (clearFlagOnIndConfirm s f) f).1 f := by
    simp [handleTyped, ht, hcl]
  have hparams :
      (handlePendingSignals (clearFlagOnIndConfirm s f) f).1.params = s.params := by
    rw [(handlePendingSignals_preserve _ f).2.1, (clearFlagOnIndConfirm_preserve s f).2.1]
  have hclosed :
      (handlePendingSignals (clearFlagOnIndConfirm s f) f).1.closed = s.closed := by
    rw [(handlePendingSignals_preserve _ f).2.2.2.2.2,
        (clearFlagOnIndConfirm_preserve s f).2.2.2.2.2]
  constructor
  · intro hlt
    rw [handleFrame_eq, hty2, handleManagementLqiResponse_eq _ f hwf', if_pos hlt, hparams]
    refine ⟨?_, ?_, ?_⟩
    · exact List.mem_append.mpr (Or.inr (List.mem_singleton.mpr rfl))
    · intro d i hmem
      rcases List.mem_append.mp hmem with hm | hm
      · rcases handlePendingSignals_outs _ f _ hm with he | he <;> simp at he
      · simp only [List.mem_singleton, OutFrame.lqiRequest.injEq] at hm
        exact hm.2
    · dsimp only
      rw [(registerNeighbors_preserve _ _ _).2.2.2, hclosed]
  · intro hge
    rw [handleFrame_eq, hty2, handleManagementLqiResponse_eq _ f hwf', if_neg hge]
    refine ⟨?_, rfl, ?_⟩
    · intro d i hmem
      rw [List.append_nil] at hmem
      rcases handlePendingSignals_outs _ f _ hmem with he | he <;> simp at he
    · simp [machineState]

/-- Witness for C4 at a concrete input (a one-entry page of a three-entry
table, so a next request at startIndex 1 is due). -/
theorem c4_pagination_step_witness :
    (lqiPage.type = FrameType.apsDataIndication ∧
     lqiPage.clusterId = MANAGEMENT_LQI_RESPONSE ∧
     lqiPage.neighbors.length = lqiPage.numEntriesThisResponse) ∧
    ((lqiPage.startIndex + lqiPage.numEntriesThisResponse < lqiPage.numEntries →
        OutFrame.lqiRequest (initState.params PARAM_ID_MAC_ADDRESS)
            (lqiPage.startIndex + lqiPage.numEntriesThisResponse)
          ∈ (handleFrame PARAM initState lqiPage).2 ∧
        (∀ d i, OutFrame.lqiRequest d i ∈ (handleFrame PARAM initState lqiPage).2 →
           i = lqiPage.startIndex + lqiPage.numEntriesThisResponse) ∧
        (handleFrame PARAM initState lqiPage).1.closed = initState.closed) ∧
     (¬ lqiPage.startIndex + lqiPage.numEntriesThisResponse < lqiPage.numEntries →
        (∀ d i, OutFrame.lqiRequest d i ∉ (handleFrame PARAM initState lqiPage).2) ∧
        (handleFrame PARAM initState lqiPage).1.closed = true ∧
        machineState PARAM (handleFrame PARAM initState lqiPage).1
          = MachineState.done)) :=
  ⟨⟨rfl, rfl, rfl⟩, c4_pagination_step PARAM initState lqiPage rfl rfl rfl⟩

/-- Claim C6, counterexample: registering the two aliased pairs (11, 170)
and (12, 170) — distinct long addresses sharing the short address 170 —
leaves the Node allocated for (11, 170) reachable from the long-address
mapping but not from the short-address mapping, so the two mappings do not
hold the same Node instances. -/
theorem c6_aliased_addresses_counterexample :
    (⟨11, 170, 0⟩ : Node) ∈
      ((registerNeighbors initState [⟨11, 170⟩, ⟨12, 170⟩] 2).1.node64.map Prod.snd) ∧
    (⟨11, 170, 0⟩ : Node) ∉
      ((registerNeighbors initState [⟨11, 170⟩, ⟨12, 170⟩] 2).1.node16.map Prod.snd) := by
  refine ⟨by decide, by decide⟩

/-- Claim C6 (amended): after any sequence of node registrations whose
address pairs are consistent — no two registered entries share a short or a
long address without being the identical pair — the two registry mappings
hold the same Node instances: every stored Node is keyed by its own address
and reachable from the other mapping at its other address. -/
theorem c6_registry_cross_reachable (l : List Neighbor) (h : consistentList l) :
    StateConsistent (registerNeighbors initState l l.length).1 := by
  apply registerNeighbors_consistentAux l initState
  · constructor
    · intro k n hkn; simp [initState, lookupAddr] at hkn
    · intro k n hkn; simp [initState, lookupAddr] at hkn
  · intro m _
    constructor
    · intro n hn; simp [initState, lookupAddr] at hn
    · intro n hn; simp [initState, lookupAddr] at hn
  · exact h

/-- Witness for C6 at a concrete input. -/
theorem c6_registry_cross_reachable_witness :
    consistentList [⟨1, 2⟩, ⟨3, 4⟩] ∧
    StateConsistent
      (registerNeighbors initState [⟨1, 2⟩, ⟨3, 4⟩]
        ([⟨1, 2⟩, ⟨3, 4⟩] : List Neighbor).length).1 :=
  ⟨by unfold consistentList; decide,
   c6_registry_cross_reachable [⟨1, 2⟩, ⟨3, 4⟩] (by unfold consistentList; decide)⟩

/-- Witness for C5 at a concrete input. -/
theorem c5_cursor_monotone_invariant_witness :
    initState.paramIdx ≤ PARAM.length ∧
    ((∀ f : InFrame,
        (f.type = FrameType.readParameter → initState.paramIdx < PARAM.length →
           (handleFrame PARAM initState f).1.paramIdx = initState.paramIdx + 1) ∧
        initState.paramIdx ≤ (handleFrame PARAM initState f).1.paramIdx ∧
        (handleFrame PARAM initState f).1.paramIdx ≤ PARAM.length) ∧
     (∀ fs : List InFrame,
        initState.paramIdx ≤ (runFrames PARAM initState fs).paramIdx ∧
        (runFrames PARAM initState fs).paramIdx ≤ PARAM.length)) :=
  ⟨by decide, c5_cursor_monotone_invariant PARAM initState (by decide)⟩

/-- Claim C7, counterexample: an APS_DATA_CONFIRM frame with no pending
signal is of no expected kind in the initial state, yet processing it while
a confirmation is in flight clears the in-flight flag — the state is not
left unchanged as claimed (the frame is otherwise ignored: no output). -/
theorem c7_flag_cleared_counterexample :
    ({ initState with deviceStateUpdateInProgress := true } :
        DeconzTest).deviceStateUpdateInProgress = true ∧
    ({ baseFrame with type := FrameType.apsDataConfirm } : InFrame).dataConfirm = false ∧
    ({ baseFrame with type := FrameType.apsDataConfirm } : InFrame).dataIndication = false ∧
    (handleFrame PARAM { initState with deviceStateUpdateInProgress := true }
        { baseFrame with type := FrameType.apsDataConfirm }).1.deviceStateUpdateInProgress
      = false ∧
    (handleFrame PARAM { initState with deviceStateUpdateInProgress := true }
        { baseFrame with type := FrameType.apsDataConfirm }).2 = [] := by
  refine ⟨rfl, rfl, rfl, by decide, by decide⟩

/-- Claim C7 (amended): an inbound frame of a kind not expected in the
current state — no pending signal, not an accepted parameter-read response,
not a management-LQI response — is ignored with no outbound frame; the
state is completely unchanged when the frame type is neither
APS_DATA_INDICATION nor APS_DATA_CONFIRM, while those two frame types
additionally clear the In-Flight Confirmation Flag. -/
theorem c7_unexpected_frame_ignored (prm : List Nat) (s : DeconzTest) (f : InFrame)
    (hc : f.dataConfirm = false) (hi : f.dataIndication = false)
    (hrp : ¬ (f.type = FrameType.readParameter ∧ s.paramIdx < prm.length))
    (hlqi : ¬ (f.type = FrameType.apsDataIndication ∧
               f.clusterId = MANAGEMENT_LQI_RESPONSE)) :
    (¬ (f.type = FrameType.apsDataIndication ∨ f.type = FrameType.apsDataConfirm) →
       handleFrame prm s f = (s, [])) ∧
    ((f.type = FrameType.apsDataIndication ∨ f.type = FrameType.apsDataConfirm) →
       handleFrame prm s f = ({ s with deviceStateUpdateInProgress := false }, [])) := by
  constructor
  · intro hni
    rw [handleFrame_eq, clearFlagOnIndConfirm_of_not s f hni,
        handlePendingSignals_noSignals s f hc hi, handleTyped_notHandled prm s f hrp hlqi]
    rfl
  · intro hic
    rw [handleFrame_eq, clearFlagOnIndConfirm_of s f hic,
        handlePendingSignals_noSignals _ f hc hi,
        handleTyped_notHandled prm { s with deviceStateUpdateInProgress := false } f
          hrp hlqi]
    rfl

/-- Witness for C7 at a concrete input (an unrelated frame type). -/
theorem c7_unexpected_frame_ignored_witness :
    (({ baseFrame with type := FrameType.other 7 } : InFrame).dataConfirm = false ∧
     ({ baseFrame with type := FrameType.other 7 } : InFrame).dataIndication = false ∧
     ¬ (({ baseFrame with type := FrameType.other 7 } : InFrame).type
          = FrameType.readParameter ∧ initState.paramIdx < PARAM.length) ∧
     ¬ (({ baseFrame with type := FrameType.other 7 } : InFrame).type
          = FrameType.apsDataIndication ∧
        ({ baseFrame with type := FrameType.other 7 } : InFrame).clusterId
          = MANAGEMENT_LQI_RESPONSE)) ∧
    ((¬ (({ baseFrame with type := FrameType.other 7 } : InFrame).type
           = FrameType.apsDataIndication ∨
         ({ baseFrame with type := FrameType.other 7 } : InFrame).type
           = FrameType.apsDataConfirm) →
        handleFrame PARAM initState { baseFrame with type := FrameType.other 7 }
          = (initState, [])) ∧
     ((({ baseFrame with type := FrameType.other 7 } : InFrame).type
          = FrameType.apsDataIndication ∨
       ({ baseFrame with type := FrameType.other 7 } : InFrame).type
          = FrameType.apsDataConfirm) →
        handleFrame PARAM initState { baseFrame with type := FrameType.other 7 }
          = ({ initState with deviceStateUpdateInProgress := false }, []))) :=
  ⟨⟨rfl, rfl, by decide, by decide⟩,
   c7_unexpected_frame_ignored PARAM initState _ rfl rfl (by decide) (by decide)⟩

/-- Claim C8: with an empty Parameter Descriptor sequence, `readParameters`
(the start of a run) puts the machine directly in the neighbor-walking
state and emits the first neighbor-table request with startIndex 0, and no
parameter-read frame is emitted. -/
theorem c8_empty_descriptors_start (s : DeconzTest) (h : s.closed = false) :
    machineState [] (readParameters [] s).1 = MachineState.walkingNeighbors ∧
    (readParameters [] s).2 =
      [OutFrame.lqiRequest (s.params PARAM_ID_MAC_ADDRESS) 0] ∧
    (∀ p, OutFrame.readParam p ∉ (readParameters [] s).2) := by
  have he : readParameters [] s =
      ({ s with paramIdx := 0 },
       [OutFrame.lqiRequest (s.params PARAM_ID_MAC_ADDRESS) 0]) := rfl
  rw [he]
  refine ⟨?_, rfl, ?_⟩
  · simp [machineState, h]
  · intro p hp
    simp at hp

/-- Witness for C8 at the initial state. -/
theorem c8_empty_descriptors_start_witness :
    initState.closed = false ∧
    (machineState [] (readParameters [] initState).1 = MachineState.walkingNeighbors ∧
     (readParameters [] initState).2 =
       [OutFrame.lqiRequest (initState.params PARAM_ID_MAC_ADDRESS) 0] ∧
     (∀ p, OutFrame.readParam p ∉ (readParameters [] initState).2)) :=
  ⟨rfl, c8_empty_descriptors_start initState rfl⟩

/-- Claim C9, counterexample: an APS_DATA_CONFIRM frame carrying both the
pending-confirm and the pending-indication signal, processed while a
confirmation is in flight, emits only a confirmation frame — no
fetch-indication frame is emitted for that frame, so the claim as stated
(every such frame carrying a pending-indication signal triggers a fetch)
is false when the pending-confirm signal is also present. -/
theorem c9_both_signals_counterexample :
    (handleFrame PARAM { initState with deviceStateUpdateInProgress := true }
        { baseFrame with type := FrameType.apsDataConfirm, dataConfirm := true, dataIndication := true }).2
      = [OutFrame.dataConfirm] ∧
    OutFrame.dataIndication ∉
      (handleFrame PARAM { initState with deviceStateUpdateInProgress := true }
        { baseFrame with type := FrameType.apsDataConfirm, dataConfirm := true, dataIndication := true }).2 := by
  refine ⟨by decide, by decide⟩

/-- Claim C9 (amended): an APS_DATA_INDICATION or APS_DATA_CONFIRM frame has
the In-Flight Confirmation Flag cleared before the pending-signal checks of
the same invocation: if it carries the pending-indication signal and not the
pending-confirm signal, a fetch-indication frame is emitted even if a
confirmation was in flight immediately before (whatever the previous flag
value), and if it carries neither signal the flag ends up cleared. -/
theorem c9_flag_cleared_then_indication (prm : List Nat) (s : DeconzTest)
    (f : InFrame)
    (ht : f.type = FrameType.apsDataIndication ∨ f.type = FrameType.apsDataConfirm) :
    (f.dataConfirm = false → f.dataIndication = true →
       OutFrame.dataIndication ∈ (handleFrame prm s f).2 ∧
       (handleFrame prm s f).1.deviceStateUpdateInProgress = true) ∧
    (f.dataConfirm = false → f.dataIndication = false →
       (handleFrame prm s f).1.deviceStateUpdateInProgress = false) := by
  constructor
  · intro hc hi
    rw [handleFrame_eq, clearFlagOnIndConfirm_of s f ht]
    have hp : handlePendingSignals { s with deviceStateUpdateInProgress := false } f =
        ({ s with deviceStateUpdateInProgress := true }, [OutFrame.dataIndication]) := by
      simp [handlePendingSignals, hc, hi]
    rw [hp]
    constructor
    · exact List.mem_append.mpr (Or.inl (List.mem_singleton.mpr rfl))
    · rw [handleTyped_flag]
  · intro hc hi
    rw [handleFrame_eq, clearFlagOnIndConfirm_of s f ht,
        handlePendingSignals_noSignals _ f hc hi]
    rw [handleTyped_flag]

/-- Witness for C9 at a concrete input (flag set, indication-only signal). -/
theorem c9_flag_cleared_then_indication_witness :
    (({ baseFrame with type := FrameType.apsDataConfirm, dataIndication := true } :
        InFrame).type = FrameType.apsDataIndication ∨
     ({ baseFrame with type := FrameType.apsDataConfirm, dataIndication := true } :
        InFrame).type = FrameType.apsDataConfirm) ∧
    ((({ baseFrame with type := FrameType.apsDataConfirm, dataIndication := true } :
         InFrame).dataConfirm = false →
      ({ baseFrame with type := FrameType.apsDataConfirm, dataIndication := true } :
         InFrame).dataIndication = true →
        OutFrame.dataIndication ∈
          (handleFrame PARAM { initState with deviceStateUpdateInProgress := true }
            { baseFrame with type := FrameType.apsDataConfirm, dataIndication := true }).2 ∧
        (handleFrame PARAM { initState with deviceStateUpdateInProgress := true }
            { baseFrame with type := FrameType.apsDataConfirm, dataIndication := true }).1.deviceStateUpdateInProgress
          = true) ∧
     (({ baseFrame with type := FrameType.apsDataConfirm, dataIndication := true } :
         InFrame).dataConfirm = false →
      ({ baseFrame with type := FrameType.apsDataConfirm, dataIndication := true } :
         InFrame).dataIndication = false →
        (handleFrame PARAM { initState with deviceStateUpdateInProgress := true }
            { baseFrame with type := FrameType.apsDataConfirm, dataIndication := true }).1.deviceStateUpdateInProgress
          = false)) :=
  ⟨Or.inr rfl,
   c9_flag_cleared_then_indication PARAM
     { initState with deviceStateUpdateInProgress := true } _ (Or.inr rfl)⟩

/-- Claim C10: once the cursor equals the descriptor count, a further
READ_PARAMETER frame is a no-op for discovery state — the cursor stays at
the count, no stored parameter value changes, the registries, the
closed-flag and the derived machine state are unchanged, and neither a
neighbor-table request nor a parameter-read request is emitted. -/
theorem c10_params_done_noop (prm : List Nat) (s : DeconzTest) (f : InFrame)
    (hdone : s.paramIdx = prm.length) (ht : f.type = FrameType.readParameter) :
    (handleFrame prm s f).1.paramIdx = prm.length ∧
    (handleFrame prm s f).1.params = s.params ∧
    (handleFrame prm s f).1.node16 = s.node16 ∧
    (handleFrame prm s f).1.node64 = s.node64 ∧
    (handleFrame prm s f).1.closed = s.closed ∧
    machineState prm (handleFrame prm s f).1 = machineState prm s ∧
    (∀ d i, OutFrame.lqiRequest d i ∉ (handleFrame prm s f).2) ∧
    (∀ p, OutFrame.readParam p ∉ (handleFrame prm s f).2) := by
  have e0 := clearFlagOnIndConfirm_preserve s f
  have e1 := handlePendingSignals_preserve (clearFlagOnIndConfirm s f) f
  have hpi : (handlePendingSignals (clearFlagOnIndConfirm s f) f).1.paramIdx
      = s.paramIdx := by rw [e1.1, e0.1]
  have hnh := handleTyped_notHandled prm
      (handlePendingSignals (clearFlagOnIndConfirm s f) f).1 f
      (by rintro ⟨_, hlt⟩; rw [hpi, hdone] at hlt; exact Nat.lt_irrefl _ hlt)
      (by rintro ⟨hty, _⟩; rw [ht] at hty; cases hty)
  rw [handleFrame_eq, hnh]
  refine ⟨?_, ?_, ?_, ?_, ?_, ?_, ?_, ?_⟩
  · simpa [hdone] using hpi
  · rw [e1.2.1, e0.2.1]
  · rw [e1.2.2.1, e0.2.2.1]
  · rw [e1.2.2.2.1, e0.2.2.2.1]
  · rw [e1.2.2.2.2.2, e0.2.2.2.2.2]
  · simp only [machineState, hpi, e1.2.2.2.2.2, e0.2.2.2.2.2]
  · intro d i hmem
    rw [List.append_nil] at hmem
    rcases handlePendingSignals_outs _ f _ hmem with he | he <;> simp at he
  · intro p hmem
    rw [List.append_nil] at hmem
    rcases handlePendingSignals_outs _ f _ hmem with he | he <;> simp at he

/-- Witness for C10 at a concrete input (cursor already at the count). -/
theorem c10_params_done_noop_witness :
    (({ initState with paramIdx := 13 } : DeconzTest).paramIdx = PARAM.length ∧
     ({ baseFrame with type := FrameType.readParameter } : InFrame).type
       = FrameType.readParameter) ∧
    ((handleFrame PARAM { initState with paramIdx := 13 }
        { baseFrame with type := FrameType.readParameter }).1.paramIdx = PARAM.length ∧
     (handleFrame PARAM { initState with paramIdx := 13 }
        { baseFrame with type := FrameType.readParameter }).1.params
       = ({ initState with paramIdx := 13 } : DeconzTest).params ∧
     (handleFrame PARAM { initState with paramIdx := 13 }
        { baseFrame with type := FrameType.readParameter }).1.node16
       = ({ initState with paramIdx := 13 } : DeconzTest).node16 ∧
     (handleFrame PARAM { initState with paramIdx := 13 }
        { baseFrame with type := FrameType.readParameter }).1.node64
       = ({ initState with paramIdx := 13 } : DeconzTest).node64 ∧
     (handleFrame PARAM { initState with paramIdx := 13 }
        { baseFrame with type := FrameType.readParameter }).1.closed
       = ({ initState with paramIdx := 13 } : DeconzTest).closed ∧
     machineState PARAM (handleFrame PARAM { initState with paramIdx := 13 }
        { baseFrame with type := FrameType.readParameter }).1
       = machineState PARAM { initState with paramIdx := 13 } ∧
     (∀ d i, OutFrame.lqiRequest d i ∉
        (handleFrame PARAM { initState with paramIdx := 13 }
          { baseFrame with type := FrameType.readParameter }).2) ∧
     (∀ p, OutFrame.readParam p ∉
        (handleFrame PARAM { initState with paramIdx := 13 }
          { baseFrame with type := FrameType.readParameter }).2)) :=
  ⟨⟨by decide, rfl⟩,
   c10_params_done_noop PARAM { initState with paramIdx := 13 } _ (by decide) rfl⟩

end MgmtLqi
